import Mathlib

/-!
Shallow embedding of the content-retrieval engine of the `my-blog` repository
(`backend/models.py`, `backend/routes/blog.py`, `backend/routes/api.py`,
`backend/routes/admin.py`) over an in-memory model of the SQLite store.

Modelling conventions, shared by every definition below:
* A SQL table is a `List` of row structures, kept in rowid (insertion) order.
* `TIMESTAMP` values are `Nat` (the textual `YYYY-MM-DD HH:MM:SS` values that
  SQLite stores compare exactly like their chronological order, so `Nat`
  comparison is faithful).  The model database carries a `clock` that plays
  the role of `CURRENT_TIMESTAMP` and advances on every insert.
* `ORDER BY posts.created_at DESC` (no tie-break column appears anywhere in
  the source) is modelled as a *stable* sort on `created_at` descending:
  rows that tie on `created_at` stay in table (rowid) order, which is what a
  SQLite table scan produces.
* `LIMIT n OFFSET k` is `List.drop k` then `List.take n`.
* Nullable SQL columns are `Option`; Python truthiness of a string/None value
  is `Option String` being `some s` with `s ≠ ""`, of an int id being `≠ 0`.
* Columns that no modelled operation ever reads (`updated_at`, `post_type`,
  `source_card_ids`, card `tags`/`source`, user profile columns, comment
  bodies) are omitted from the row structures.
* The `LEFT JOIN categories/users` of the listing queries only decorates each
  post row with display columns and cannot duplicate or drop rows (the join
  keys are unique); the decoration columns are omitted.
-/

namespace MyBlog

/-- A row of the `posts` table (`init_db` in `backend/models.py`). -/
structure Post where
  id : Nat
  title : String
  content : String
  is_published : Bool := false
  category_id : Option Nat := none
  author_id : Option Nat := none
  access_level : Option String := some "public"
  access_password : Option String := none
  created_at : Nat := 0
deriving DecidableEq, Repr

/-- A row of the `posts_fts` full-text mirror: `(rowid, title, content)`. -/
structure FtsEntry where
  rowid : Nat
  title : String
  content : String
deriving DecidableEq, Repr

/-- A row of the `users` table; only the columns the modelled code reads. -/
structure User where
  id : Nat
  role : String
deriving DecidableEq, Repr

/-- A row of the `cards` table; `title` is nullable in the schema and its
Python truthiness test is `≠ ""` here (NULL and `''` behave alike). -/
structure Card where
  id : Nat
  user_id : Nat
  title : String := ""
  content : String := ""
  status : String := "idea"
  linked_article_id : Option Nat := none
  created_at : Nat := 0
deriving DecidableEq, Repr

/-- A row of the `comments` table (only the column `batch_delete` filters on). -/
structure CommentRow where
  id : Nat
  post_id : Nat
deriving DecidableEq, Repr

/-- The modelled SQLite database.  `next_post_id`/`next_tag_id` model
`AUTOINCREMENT`, `clock` models `CURRENT_TIMESTAMP`. -/
structure DB where
  posts : List Post := []
  posts_fts : List FtsEntry := []
  users : List User := []
  cards : List Card := []
  tags : List (Nat × String) := []
  post_tags : List (Nat × Nat) := []
  comments : List CommentRow := []
  next_post_id : Nat := 1
  next_tag_id : Nat := 1
  clock : Nat := 1
deriving DecidableEq, Repr

/-! ### Ordering: `ORDER BY created_at DESC` -/

/-- The comparator of `ORDER BY created_at DESC`: `a` may precede `b` iff
`b.created_at ≤ a.created_at`.  A stable insertion sort under this relation
keeps rows that tie on `created_at` in their table order. -/
def createdDesc (a b : Post) : Prop := b.created_at ≤ a.created_at

instance : DecidableRel createdDesc := fun a b => Nat.decLe b.created_at a.created_at

instance : IsTotal Post createdDesc :=
  ⟨fun a b => Nat.le_total b.created_at a.created_at⟩

instance : IsTrans Post createdDesc :=
  ⟨fun _ _ _ hab hbc => Nat.le_trans hbc hab⟩

/-- `ORDER BY created_at DESC` on a list of post rows. -/
def sortByCreatedDesc (l : List Post) : List Post := l.insertionSort createdDesc

/-! ### Shared filter construction (`get_all_posts` / `get_all_posts_cursor`) -/

/-- The `posts.is_published = 1` condition, applied unless drafts are included. -/
def pubCond (include_drafts : Bool) (p : Post) : Bool :=
  include_drafts || p.is_published

/-- The category filter: `none` = no filter, `some none` = the `'none'`
sentinel (`posts.category_id IS NULL`), `some (some c)` = `posts.category_id = c`. -/
def catCond (category_id : Option (Option Nat)) (p : Post) : Bool :=
  match category_id with
  | none => true
  | some none => p.category_id == none
  | some (some c) => p.category_id == some c

/-- The conjunction of the hardcoded WHERE conditions that both listing modes
build (`backend/models.py` lines 387-399 and 464-475). -/
def basePred (include_drafts : Bool) (category_id : Option (Option Nat)) (p : Post) : Bool :=
  pubCond include_drafts p && catCond category_id p

/-! ### Offset-mode listing: `get_all_posts` -/

/-- The dict returned by `get_all_posts` / `search_posts`. -/
structure PostsPage where
  posts : List Post
  total : Nat
  page : Nat
  per_page : Nat
  total_pages : Nat
deriving DecidableEq, Repr

/-- `get_all_posts` (`backend/models.py` lines 382-446): filtered count,
`ORDER BY created_at DESC LIMIT per_page OFFSET (page-1)*per_page`. -/
def get_all_posts (db : DB) (include_drafts : Bool := false) (page : Nat := 1)
    (per_page : Nat := 20) (category_id : Option (Option Nat) := none) : PostsPage :=
  let matched := db.posts.filter (basePred include_drafts category_id)
  let total := matched.length
  let off := (page - 1) * per_page
  { posts := ((sortByCreatedDesc matched).drop off).take per_page
    total := total
    page := page
    per_page := per_page
    total_pages := if 0 < total then (total + per_page - 1) / per_page else 1 }

/-! ### Cursor-mode listing: `get_all_posts_cursor` -/

/-- The dict returned by `get_all_posts_cursor`. -/
structure CursorPage where
  posts : List Post
  next_cursor : Option Nat
  has_more : Bool
  per_page : Nat
deriving DecidableEq, Repr

/-- `get_all_posts_cursor` (`backend/models.py` lines 448-517): the same base
filter, plus `posts.created_at < cursor` when a cursor is supplied; fetches
`per_page + 1` rows, returns the first `per_page`, and sets `next_cursor`
to the `created_at` of the last returned row.  No id tie-break exists in the
query. -/
def get_all_posts_cursor (db : DB) (cursor_time : Option Nat := none)
    (per_page : Nat := 20) (include_drafts : Bool := false)
    (category_id : Option (Option Nat) := none) : CursorPage :=
  let pred := fun p => basePred include_drafts category_id p &&
    (match cursor_time with
     | none => true
     | some t => decide (p.created_at < t))
  let rows := (sortByCreatedDesc (db.posts.filter pred)).take (per_page + 1)
  let posts := rows.take per_page
  { posts := posts
    next_cursor := posts.getLast?.map (·.created_at)
    has_more := decide (per_page < rows.length)
    per_page := per_page }

/-- The client loop the spec describes: start with no cursor and keep calling
`get_all_posts_cursor` with the returned `next_cursor` while `has_more`;
`fuel` bounds the number of calls. -/
def collectCursorPages (db : DB) (per_page : Nat) (include_drafts : Bool)
    (category_id : Option (Option Nat)) : Nat → Option Nat → List Post
  | 0, _ => []
  | fuel + 1, cursor_time =>
    let r := get_all_posts_cursor db cursor_time per_page include_drafts category_id
    if r.has_more then
      r.posts ++ collectCursorPages db per_page include_drafts category_id fuel r.next_cursor
    else
      r.posts

/-- The single unpaginated query under the same filter: the whole filtered
set in `ORDER BY created_at DESC` order. -/
def postsQuery (db : DB) (include_drafts : Bool) (category_id : Option (Option Nat)) : List Post :=
  sortByCreatedDesc (db.posts.filter (basePred include_drafts category_id))

/-! ### Free-text search: `search_posts` -/

/-- ASCII lower-casing, as SQLite's default `LIKE` applies to ASCII letters. -/
def likeLower (c : Char) : Char :=
  if 'A' ≤ c && c ≤ 'Z' then Char.ofNat (c.toNat + 32) else c

/-- `needle` is a prefix of `hay` (character lists). -/
def charsPrefix : List Char → List Char → Bool
  | [], _ => true
  | _ :: _, [] => false
  | a :: as, b :: bs => a == b && charsPrefix as bs

/-- `needle` occurs contiguously inside `hay` (character lists). -/
def charsContain (needle : List Char) : List Char → Bool
  | [] => charsPrefix needle []
  | b :: bs => charsPrefix needle (b :: bs) || charsContain needle bs

/-- `hay LIKE '%' || pat || '%'` for a pattern `pat` free of the `LIKE`
metacharacters `%`/`_`: case-insensitive (ASCII) substring containment. -/
def likeContains (hay pat : String) : Bool :=
  charsContain (pat.data.map likeLower) (hay.data.map likeLower)

/-- `search_posts` (`backend/models.py` lines 814-883): matches the caller's
query with `posts.title LIKE ? OR posts.content LIKE ?` against the primary
`posts` table (the `posts_fts` mirror is not consulted), then paginates like
`get_all_posts`. -/
def search_posts (db : DB) (query : String) (include_drafts : Bool := false)
    (page : Nat := 1) (per_page : Nat := 20) : PostsPage :=
  let pred := fun p => (likeContains p.title query || likeContains p.content query) &&
    pubCond include_drafts p
  let matched := db.posts.filter pred
  let total := matched.length
  let off := (page - 1) * per_page
  { posts := ((sortByCreatedDesc matched).drop off).take per_page
    total := total
    page := page
    per_page := per_page
    total_pages := if 0 < total then (total + per_page - 1) / per_page else 1 }

/-! ### Post mutations (`create_post`, `update_post`, `delete_post`,
`update_post_with_tags`, `merge_cards_to_post`, `ai_merge_cards_to_post`) -/

/-- `create_post` (`backend/models.py` lines 297-331): inserts the post row
and, in the same transaction, the matching `posts_fts` row.  Returns the new
id (`cursor.lastrowid`). -/
def create_post (db : DB) (title content : String) (is_published : Bool := false)
    (category_id : Option Nat := none) (author_id : Option Nat := none)
    (access_level : String := "public") (access_password : Option String := none) :
    DB × Nat :=
  let pid := db.next_post_id
  let p : Post :=
    { id := pid, title := title, content := content, is_published := is_published
      category_id := category_id, author_id := author_id
      access_level := some access_level, access_password := access_password
      created_at := db.clock }
  ({ db with posts := db.posts ++ [p]
             posts_fts := db.posts_fts ++ [⟨pid, title, content⟩]
             next_post_id := pid + 1
             clock := db.clock + 1 }, pid)

/-- `update_post` (`backend/models.py` lines 333-368): updates the post row
when one matches (a SQL `UPDATE` touching no row is a silent no-op), then
unconditionally deletes and re-inserts the `posts_fts` row for `post_id`.
Always returns `True`. -/
def update_post (db : DB) (post_id : Nat) (title content : String)
    (is_published : Bool) (category_id : Option Nat := none)
    (access_level : Option String := none) (access_password : Option String := none) :
    DB × Bool :=
  let posts' := db.posts.map (fun p =>
    if p.id = post_id then
      match access_level with
      | some lvl =>
        { p with title := title, content := content, is_published := is_published
                 category_id := category_id, access_level := some lvl
                 access_password := access_password }
      | none =>
        { p with title := title, content := content, is_published := is_published
                 category_id := category_id }
    else p)
  let fts' := (db.posts_fts.filter (fun e => e.rowid != post_id)) ++ [⟨post_id, title, content⟩]
  ({ db with posts := posts', posts_fts := fts', clock := db.clock + 1 }, true)

/-- `delete_post` (`backend/models.py` lines 370-380): deletes the post row
and its `posts_fts` row. -/
def delete_post (db : DB) (post_id : Nat) : DB :=
  { db with posts := db.posts.filter (fun p => p.id != post_id)
            posts_fts := db.posts_fts.filter (fun e => e.rowid != post_id) }

/-- One iteration of the tag loop of `update_post_with_tags`: look the tag up
by (stripped) name, create it if absent, and associate it with the post. -/
def attachTag (post_id : Nat) (db : DB) (tag_name : String) : DB :=
  let name := tag_name.trim
  if name = "" then db
  else
    match db.tags.find? (fun t => t.2 == name) with
    | some t => { db with post_tags := db.post_tags ++ [(post_id, t.1)] }
    | none =>
      let tid := db.next_tag_id
      { db with tags := db.tags ++ [(tid, name)]
                next_tag_id := tid + 1
                post_tags := db.post_tags ++ [(post_id, tid)] }

/-- `update_post_with_tags` (`backend/models.py` lines 1333-1393): updates the
post row, delete-then-reinserts the `posts_fts` row, clears the post's tag
associations and rebuilds them from `tag_names`.  (The `IntegrityError` race
branch of the source cannot fire in a single-writer model.)  Returns `True`. -/
def update_post_with_tags (db : DB) (post_id : Nat) (title content : String)
    (is_published : Bool) (category_id : Option Nat := none)
    (tag_names : List String := []) : DB × Bool :=
  let posts' := db.posts.map (fun p =>
    if p.id = post_id then
      { p with title := title, content := content, is_published := is_published
               category_id := category_id }
    else p)
  let fts' := (db.posts_fts.filter (fun e => e.rowid != post_id)) ++ [⟨post_id, title, content⟩]
  let db1 := { db with posts := posts', posts_fts := fts'
                       post_tags := db.post_tags.filter (fun t => t.1 != post_id)
                       clock := db.clock + 1 }
  (tag_names.foldl (attachTag post_id) db1, true)

/-- The comparator of the card query's `ORDER BY created_at DESC`. -/
def cardCreatedDesc (a b : Card) : Prop := b.created_at ≤ a.created_at

instance : DecidableRel cardCreatedDesc := fun a b => Nat.decLe b.created_at a.created_at

/-- The merged markdown `merge_cards_to_post` builds from the selected cards
(`## title` heading when the card title is truthy, then content, then a
`---` separator). -/
def mergedCardContent (cards : List Card) : String :=
  cards.foldl (fun acc c =>
    acc ++ (if c.title ≠ "" then "## " ++ c.title ++ "\n\n" else "") ++
      c.content ++ "\n\n---\n\n") ""

/-- `merge_cards_to_post` (`backend/models.py` lines 1216-1282): selects the
caller's cards, merges their content, then either appends to an existing
post's content or inserts a new draft post, and links the cards.  NOTE (as in
the source): no `posts_fts` statement appears anywhere in this function. -/
def merge_cards_to_post (db : DB) (card_ids : List Nat) (user_id : Nat)
    (post_id? : Option Nat := none) : Except String (DB × Nat) :=
  let cards := (db.cards.filter (fun c => card_ids.contains c.id && c.user_id == user_id)).insertionSort cardCreatedDesc
  match cards with
  | [] => .error "No valid cards found"
  | c0 :: _ =>
    let merged := mergedCardContent cards
    let linkCards := fun (d : DB) (pid : Nat) =>
      d.cards.map (fun c =>
        if card_ids.contains c.id then
          { c with status := "published", linked_article_id := some pid }
        else c)
    match post_id? with
    | some pid =>
      let mergedFinal :=
        match db.posts.find? (fun p => p.id == pid) with
        | some p => p.content ++ "\n\n---\n\n" ++ merged
        | none => merged
      let posts' := db.posts.map (fun p =>
        if p.id == pid then { p with content := mergedFinal } else p)
      let db' := { db with posts := posts', clock := db.clock + 1 }
      .ok ({ db' with cards := linkCards db' pid }, pid)
    | none =>
      let title := if c0.title ≠ "" then c0.title else "未命名文章"
      let pid := db.next_post_id
      let p : Post :=
        { id := pid, title := title, content := merged, is_published := false
          author_id := some user_id, created_at := db.clock }
      let db' := { db with posts := db.posts ++ [p], next_post_id := pid + 1
                           clock := db.clock + 1 }
      .ok ({ db' with cards := linkCards db' pid }, pid)

/-- `ai_merge_cards_to_post` (`backend/models.py` lines 1285-1330): the AI
merge service is an external collaborator, so its generated title/content
arrive as arguments; the function inserts the new draft post and links the
cards with status `incubating`.  NOTE (as in the source): no `posts_fts`
statement appears anywhere in this function. -/
def ai_merge_cards_to_post (db : DB) (card_ids : List Nat) (user_id : Nat)
    (ai_title ai_content : String) : DB × Nat :=
  let pid := db.next_post_id
  let p : Post :=
    { id := pid, title := ai_title, content := ai_content, is_published := false
      author_id := some user_id, created_at := db.clock }
  let cards' := db.cards.map (fun c =>
    if card_ids.contains c.id then
      { c with status := "incubating", linked_article_id := some pid }
    else c)
  ({ db with posts := db.posts ++ [p], cards := cards', next_post_id := pid + 1
             clock := db.clock + 1 }, pid)

/-! ### The index-consistency invariant -/

/-- The index-consistency invariant of the spec: every live post id has
exactly one `posts_fts` row, carrying the post's current title/content, and
no `posts_fts` row exists for an id without a live post. -/
def indexConsistent (db : DB) : Bool :=
  db.posts.all (fun p =>
    decide (db.posts_fts.filter (fun e => e.rowid == p.id) =
      [{ rowid := p.id, title := p.title, content := p.content }])) &&
  db.posts_fts.all (fun e => db.posts.any (fun p => p.id == e.rowid))

/-! ### Access resolver: `check_post_access` / `verify_post_password` -/

/-- The row `check_post_access` selects:
`SELECT access_level, access_password, author_id FROM posts WHERE id = ?`. -/
def postAccessRow (db : DB) (post_id : Nat) :
    Option (Option String × Option String × Option Nat) :=
  (db.posts.find? (fun p => p.id == post_id)).map
    (fun p => (p.access_level, p.access_password, p.author_id))

/-- The row the private branch selects:
`SELECT role FROM users WHERE id = ?`. -/
def userRoleLookup (db : DB) (user_id : Nat) : Option String :=
  (db.users.find? (fun u => u.id == user_id)).map (·.role)

/-- The dict `check_post_access` returns (`has_password` only appears on the
`password_required` denial). -/
structure AccessResult where
  allowed : Bool
  reason : String
  has_password : Option Bool := none
deriving DecidableEq, Repr

/-- `post['access_level'] or 'public'`: `None` and `''` fall back to public. -/
def effLevel : Option String → String
  | none => "public"
  | some s => if s = "" then "public" else s

/-- `bool(access_password)`: `None` and `''` are falsy. -/
def pwTruthy : Option String → Bool
  | none => false
  | some s => s != ""

/-- `check_post_access` (`backend/models.py` lines 1962-2033).  `public` is
always allowed; `private` requires a truthy `user_id` whose `users` row exists
and is the author or an admin; `login` requires any truthy `user_id`;
`password` is allowed for the author, else for a session holding the key
`str(post_id)`, else denied `password_required`; an unrecognized level falls
through to allowed/`unknown`. -/
def check_post_access (db : DB) (post_id : Nat) (user_id : Option Nat := none)
    (session_passwords : List String := []) : AccessResult :=
  match postAccessRow db post_id with
  | none => { allowed := false, reason := "文章不存在" }
  | some (lvlRaw, pw, author) =>
    let lvl := effLevel lvlRaw
    if lvl = "public" then { allowed := true, reason := "public" }
    else if lvl = "private" then
      match user_id with
      | some uid =>
        if uid != 0 then
          match userRoleLookup db uid with
          | some role =>
            if author == some uid || role == "admin" then
              { allowed := true, reason := "author_or_admin" }
            else { allowed := false, reason := "private" }
          | none => { allowed := false, reason := "private" }
        else { allowed := false, reason := "private" }
      | none => { allowed := false, reason := "private" }
    else if lvl = "login" then
      match user_id with
      | some uid =>
        if uid != 0 then { allowed := true, reason := "logged_in" }
        else { allowed := false, reason := "login_required" }
      | none => { allowed := false, reason := "login_required" }
    else if lvl = "password" then
      if (match user_id with
          | some uid => uid != 0 && author == some uid
          | none => false) then
        { allowed := true, reason := "author" }
      else if !session_passwords.isEmpty && session_passwords.contains (toString post_id) then
        { allowed := true, reason := "password_verified" }
      else
        { allowed := false, reason := "password_required", has_password := some (pwTruthy pw) }
    else { allowed := true, reason := "unknown" }

/-- `verify_post_password` in `backend/models.py` (lines 2068-2105): fetches
the stored secret of a `password`-level post and compares it exactly. -/
def verify_post_password (db : DB) (post_id : Nat) (password : String) : Bool :=
  match db.posts.find? (fun p => p.id == post_id && p.access_level == some "password") with
  | none => false
  | some p =>
    match p.access_password with
    | none => false
    | some pw => if pw = "" then false else password == pw

/-! ### Route layer (`backend/routes/blog.py`, `api.py`, `admin.py`) -/

/-- The Flask session: logged-in user id and the unlock cache
`session['unlocked_posts']`, modelled by its key set (every stored value is
`True`). -/
structure Session where
  user_id : Option Nat := none
  unlocked_posts : List String := []
deriving DecidableEq, Repr

/-- The `per_page` validation shared by `blog.index` (`blog.py` lines 29-35),
`admin.dashboard` (`admin.py` lines 82-87) and `api.api_posts_cursor`
(`api.py`): values outside `[10, 20, 40, 80]` silently become 20. -/
def clamp_per_page (per_page : Nat) : Nat :=
  if [10, 20, 40, 80].contains per_page then per_page else 20

/-- `blog.index` (`backend/routes/blog.py` lines 26-58), reduced to the data
it requests: published posts, offset mode, validated `per_page`. -/
def blog_index (db : DB) (page : Nat := 1) (per_page : Nat := 20) : PostsPage :=
  get_all_posts db false page (clamp_per_page per_page) none

/-- `api.api_posts_cursor` (`backend/routes/api.py`): cursor mode over
published posts, validated `per_page`. -/
def api_posts_cursor (db : DB) (cursor_time : Option Nat := none)
    (per_page : Nat := 20) (category_id : Option (Option Nat) := none) : CursorPage :=
  get_all_posts_cursor db cursor_time (clamp_per_page per_page) false category_id

/-- The `blog.verify_post_password` route (`backend/routes/blog.py` lines
135-164).  At module scope the route's own `def verify_post_password(post_id)`
rebinds the name imported from `models`, so the call
`verify_post_password(post_id, password)` on line 146 resolves to the
one-parameter route handler itself and raises
`TypeError: verify_post_password() takes 1 positional argument but 2 were
given` before any session write.  An empty password still returns the 400
response first. -/
def route_verify_post_password (db : DB) (post_id : Nat) (password : String)
    (sess : Session) : Except String (Nat × Session) :=
  if password = "" then .ok (400, sess)
  else .error "TypeError: verify_post_password() takes 1 positional argument but 2 were given"

/-- The value `admin.batch_delete` computes: the mutated store plus the
accumulated counters the response is built from. -/
structure BatchDeleteResult where
  db : DB
  deleted_count : Nat
  errors : List String
  success : Bool
  message : String
deriving DecidableEq, Repr

/-- One iteration of the `batch_delete` loop: four `DELETE` statements for
one id.  A `DELETE` whose `WHERE` matches no row is a successful no-op in
SQLite, so — absent store-level failures, which this model excludes — the
source's per-item `except` branch is unreachable and every id increments
`deleted_count`. -/
def batchDeleteStep (acc : DB × Nat) (pid : Nat) : DB × Nat :=
  let (d, cnt) := acc
  ({ d with post_tags := d.post_tags.filter (fun t => t.1 != pid)
            comments := d.comments.filter (fun c => c.post_id != pid)
            posts_fts := d.posts_fts.filter (fun e => e.rowid != pid)
            posts := d.posts.filter (fun p => p.id != pid) }, cnt + 1)

/-- `admin.batch_delete` (`backend/routes/admin.py` lines 343-408): 400 on an
empty selection, otherwise per-id deletion with accumulated count/errors and
a message assembled from them; `success` is `deleted_count > 0`. -/
def batch_delete (db : DB) (post_ids : List Nat) : Except (Nat × String) BatchDeleteResult :=
  if post_ids.isEmpty then .error (400, "未选择任何文章")
  else
    let (db', deleted_count) := post_ids.foldl batchDeleteStep (db, 0)
    let errors : List String := []
    .ok { db := db'
          deleted_count := deleted_count
          errors := errors
          success := decide (0 < deleted_count)
          message :=
            if errors.isEmpty then s!"成功删除 {deleted_count} 篇文章"
            else s!"部分成功: {deleted_count}/{post_ids.length} 篇文章删除成功" }

/-! ### Helper lemmas: stable sorting commutes with filtering -/

/-- Inserting an element kept by `p` commutes with `filter p` on a sorted list. -/
theorem filter_orderedInsert_pos {α : Type} (r : α → α → Prop) [DecidableRel r]
    [IsTrans α r] (p : α → Bool) (a : α) (m : List α)
    (hm : m.Pairwise r) (ha : p a = true) :
    (List.orderedInsert r a m).filter p = List.orderedInsert r a (m.filter p) := by
  induction m with
  | nil => simp [List.orderedInsert, ha]
  | cons b m ih =>
    rw [List.pairwise_cons] at hm
    obtain ⟨hb, hm'⟩ := hm
    by_cases hr : r a b
    · rw [List.orderedInsert, if_pos hr]
      by_cases hpb : p b = true
      · simp [List.filter_cons, ha, hpb, List.orderedInsert, hr]
      · have hall : ∀ x ∈ m.filter p, r a x := fun x hx =>
          IsTrans.trans a b x hr (hb x (List.mem_of_mem_filter hx))
        cases hfm : m.filter p with
        | nil => simp [List.filter_cons, ha, hpb, hfm, List.orderedInsert]
        | cons c l' =>
          have hac : r a c := hall c (hfm ▸ List.mem_cons_self c l')
          simp [List.filter_cons, ha, hpb, hfm, List.orderedInsert, hac]
    · rw [List.orderedInsert, if_neg hr]
      by_cases hpb : p b = true
      · simp [List.filter_cons, hpb, List.orderedInsert, hr, ih hm']
      · simp [List.filter_cons, hpb, ih hm']

/-- Inserting an element discarded by `p` leaves `filter p` unchanged. -/
theorem filter_orderedInsert_neg {α : Type} (r : α → α → Prop) [DecidableRel r]
    (p : α → Bool) (a : α) (m : List α) (ha : p a = false) :
    (List.orderedInsert r a m).filter p = m.filter p := by
  induction m with
  | nil => simp [List.orderedInsert, ha]
  | cons b m ih =>
    by_cases hr : r a b
    · simp [List.orderedInsert, hr, List.filter_cons, ha]
    · simp [List.orderedInsert, hr, List.filter_cons, ih]

/-- A stable insertion sort commutes with filtering. -/
theorem filter_insertionSort_comm {α : Type} (r : α → α → Prop) [DecidableRel r]
    [IsTotal α r] [IsTrans α r] (p : α → Bool) (l : List α) :
    (List.insertionSort r l).filter p = List.insertionSort r (l.filter p) := by
  induction l with
  | nil => rfl
  | cons a l ih =>
    rw [List.insertionSort]
    by_cases hpa : p a = true
    · rw [filter_orderedInsert_pos r p a _ (List.sorted_insertionSort r l) hpa, ih,
        List.filter_cons, if_pos hpa, List.insertionSort]
    · rw [filter_orderedInsert_neg r p a _ (Bool.eq_false_iff.mpr (fun h => hpa h)), ih,
        List.filter_cons, if_neg (fun h => hpa h)]

/-! ### Characterizing cursor pages as slices of the unpaginated query -/

/-- The rows still ahead of a cursor position: the whole ordered query for the
first call, and the strictly-older rows once a cursor is supplied. -/
def remainingAfter (db : DB) (include_drafts : Bool) (category_id : Option (Option Nat)) :
    Option Nat → List Post
  | none => postsQuery db include_drafts category_id
  | some t => (postsQuery db include_drafts category_id).filter
      (fun p => decide (p.created_at < t))

theorem get_all_posts_cursor_eq (db : DB) (ct : Option Nat) (n : Nat)
    (drafts : Bool) (cat : Option (Option Nat)) :
    get_all_posts_cursor db ct n drafts cat =
      { posts := (remainingAfter db drafts cat ct).take n
        next_cursor := ((remainingAfter db drafts cat ct).take n).getLast?.map (·.created_at)
        has_more := decide (n < ((remainingAfter db drafts cat ct).take (n + 1)).length)
        per_page := n } := by
  have htake : ∀ (S : List Post), (S.take (n + 1)).take n = S.take n := fun S => by
    rw [List.take_take, Nat.min_eq_left (Nat.le_succ n)]
  cases ct with
  | none =>
    show get_all_posts_cursor db none n drafts cat = _
    unfold get_all_posts_cursor remainingAfter postsQuery sortByCreatedDesc
    simp only [Bool.and_true, htake]
  | some t =>
    have hf : (db.posts.filter (basePred drafts cat)).filter (fun p => decide (p.created_at < t))
        = db.posts.filter (fun p => basePred drafts cat p && decide (p.created_at < t)) := by
      rw [List.filter_filter]
      exact List.filter_congr (fun p _ => Bool.and_comm _ _)
    have hcomm : (List.insertionSort createdDesc (db.posts.filter (basePred drafts cat))).filter
          (fun p => decide (p.created_at < t))
        = List.insertionSort createdDesc
            (db.posts.filter (fun p => basePred drafts cat p && decide (p.created_at < t))) := by
      rw [filter_insertionSort_comm, hf]
    simp only [get_all_posts_cursor, remainingAfter, postsQuery, sortByCreatedDesc]
    simp only [hcomm, htake]

/-- Strict version of the descending order, available once `created_at`
values are pairwise distinct. -/
def createdGt (a b : Post) : Prop := b.created_at < a.created_at

theorem strictDesc_of_nodup (L : List Post) (hs : L.Sorted createdDesc)
    (hn : (L.map (·.created_at)).Nodup) : L.Pairwise createdGt := by
  have h2 : L.Pairwise (fun a b => a.created_at ≠ b.created_at) := List.pairwise_map.mp hn
  exact (hs.and h2).imp (fun h => Nat.lt_of_le_of_ne h.1 (fun he => h.2 he.symm))

/-- On a strictly descending list `A ++ b :: B`, filtering for rows strictly
older than `b` yields exactly `B`. -/
theorem filter_lt_of_split (A B : List Post) (b : Post)
    (hL : (A ++ b :: B).Pairwise createdGt) :
    (A ++ b :: B).filter (fun x => decide (x.created_at < b.created_at)) = B := by
  induction A with
  | nil =>
    rw [List.nil_append] at hL
    rw [List.pairwise_cons] at hL
    obtain ⟨hb, hB⟩ := hL
    rw [List.nil_append, List.filter_cons]
    simp only [decide_eq_true_eq, Nat.lt_irrefl, if_false]
    exact List.filter_eq_self.mpr (fun x hx => decide_eq_true (hb x hx))
  | cons a A ih =>
    rw [List.cons_append, List.pairwise_cons] at hL
    obtain ⟨ha, hrest⟩ := hL
    have hab : b.created_at < a.created_at :=
      ha b (List.mem_append_right A (List.mem_cons_self b B))
    rw [List.cons_append, List.filter_cons]
    simp only [decide_eq_true_eq]
    rw [if_neg (Nat.lt_asymm hab)]
    exact ih hrest

/-- The cursor loop, started at any position of the ordered query, returns
exactly the rows from that position on — provided `created_at` values are
pairwise distinct (strict descent) and every page is nonempty. -/
theorem collect_from_suffix (db : DB) (drafts : Bool) (cat : Option (Option Nat))
    (n : Nat) (hn : 0 < n) (hd : (postsQuery db drafts cat).Pairwise createdGt) :
    ∀ (fuel k : Nat) (ct : Option Nat),
      remainingAfter db drafts cat ct = (postsQuery db drafts cat).drop k →
      (postsQuery db drafts cat).length - k < fuel →
      collectCursorPages db n drafts cat fuel ct = (postsQuery db drafts cat).drop k := by
  intro fuel
  induction fuel with
  | zero => intro k ct _ hf; omega
  | succ fuel ih =>
    intro k ct hct hfuel
    simp only [collectCursorPages, get_all_posts_cursor_eq db ct n drafts cat, hct]
    set L := postsQuery db drafts cat with hLdef
    set S := L.drop k with hSdef
    by_cases hmore : n < (S.take (n + 1)).length
    · rw [if_pos (decide_eq_true hmore)]
      have hSlen : n + 1 ≤ S.length := by
        rw [List.length_take] at hmore; omega
      have hpne : S.take n ≠ [] := by
        have hlt : (S.take n).length = n := by rw [List.length_take]; omega
        intro h
        rw [h, List.length_nil] at hlt
        omega
      have hlast : (S.take n).getLast? = some ((S.take n).getLast hpne) :=
        List.getLast?_eq_getLast _ hpne
      set b := (S.take n).getLast hpne with hbdef
      have h1 : S = (S.take n).dropLast ++ b :: S.drop n := by
        conv_lhs => rw [← List.take_append_drop n S]
        conv_lhs => rw [← List.dropLast_append_getLast hpne]
        rw [List.append_assoc, List.singleton_append]
      have hsplit : L = (L.take k ++ (S.take n).dropLast) ++ b :: S.drop n := by
        conv_lhs => rw [← List.take_append_drop k L, ← hSdef, h1]
        rw [List.append_assoc]
      have hfilter : L.filter (fun x => decide (x.created_at < b.created_at)) = S.drop n := by
        conv_lhs => rw [hsplit]
        exact filter_lt_of_split _ _ b (hsplit ▸ hd)
      have hdropn : S.drop n = L.drop (k + n) := by
        rw [hSdef, List.drop_drop, Nat.add_comm]
      have hrec : collectCursorPages db n drafts cat fuel (some b.created_at) = L.drop (k + n) := by
        apply ih (k + n)
        · show remainingAfter db drafts cat (some b.created_at) = L.drop (k + n)
          simp only [remainingAfter, ← hLdef]
          rw [hfilter, hdropn]
        · have hSL : S.length = L.length - k := List.length_drop k L
          omega
      rw [hlast]
      simp only [Option.map_some']
      rw [hrec, ← hdropn]
      exact List.take_append_drop n S
    · rw [if_neg (fun h => hmore (of_decide_eq_true h))]
      have hSshort : S.length ≤ n := by
        rw [List.length_take] at hmore; omega
      rw [List.take_of_length_le hSshort]

/-! ### Concrete stores used by counterexamples and witnesses -/

/-- A published post; shares its `created_at` with `tiePost2`. -/
def tiePost1 : Post :=
  { id := 1, title := "t1", content := "c1", is_published := true, created_at := 5 }

/-- A published post; shares its `created_at` with `tiePost1`. -/
def tiePost2 : Post :=
  { id := 2, title := "t2", content := "c2", is_published := true, created_at := 5 }

/-- A store with two published posts that tie on `created_at`. -/
def tieDB : DB :=
  { posts := [tiePost1, tiePost2]
    posts_fts := [⟨1, "t1", "c1"⟩, ⟨2, "t2", "c2"⟩]
    next_post_id := 3, clock := 9 }

/-- A store with two published posts with distinct `created_at`. -/
def distinctDB : DB :=
  { posts := [{ id := 1, title := "a", content := "x", is_published := true, created_at := 3 },
              { id := 2, title := "b", content := "y", is_published := true, created_at := 7 }]
    posts_fts := [⟨1, "a", "x"⟩, ⟨2, "b", "y"⟩]
    next_post_id := 3, clock := 9 }

/-- A consistent store holding one post (made by `create_post`) and one card,
the starting point for the merge counterexamples. -/
def mergeBaseDB : DB :=
  (create_post
    { users := [⟨9, "author"⟩]
      cards := [{ id := 1, user_id := 9, title := "T", content := "cc", created_at := 3 }] }
    "first" "body" true).1

/-- A store with a single password-protected post whose secret is `"abc"`. -/
def pwPostDB : DB :=
  { posts := [{ id := 5, title := "locked", content := "secret body", is_published := true,
                author_id := some 9, access_level := some "password",
                access_password := some "abc", created_at := 1 }]
    posts_fts := [⟨5, "locked", "secret body"⟩]
    users := [⟨9, "author"⟩]
    next_post_id := 6 }

/-- Two password posts with identical access fields (level, secret, owner). -/
def twinPwDB : DB :=
  { posts := [{ id := 1, title := "pw1", content := "b1", is_published := true,
                author_id := some 9, access_level := some "password",
                access_password := some "s", created_at := 1 },
              { id := 2, title := "pw2", content := "b2", is_published := true,
                author_id := some 9, access_level := some "password",
                access_password := some "s", created_at := 2 }]
    posts_fts := [⟨1, "pw1", "b1"⟩, ⟨2, "pw2", "b2"⟩]
    users := [⟨9, "author"⟩]
    next_post_id := 3 }

/-- A store with posts 1 and 3 (no post 2), their mirror rows, comments and
tag links, for the batch-delete scenario. -/
def batchDB : DB :=
  { posts := [{ id := 1, title := "a", content := "x", is_published := true, created_at := 1 },
              { id := 3, title := "c", content := "z", is_published := true, created_at := 2 }]
    posts_fts := [⟨1, "a", "x"⟩, ⟨3, "c", "z"⟩]
    comments := [⟨1, 1⟩, ⟨2, 3⟩]
    post_tags := [(1, 1), (3, 1)]
    tags := [(1, "t")]
    next_post_id := 4 }

/-- The post of `mirrorDB`. -/
def helloPost : Post :=
  { id := 1, title := "hello", content := "world", is_published := true, created_at := 1 }

/-- A drifted store: the primary table says `hello`/`world` while the mirror
row for the same id says `zebra`. -/
def mirrorDB : DB :=
  { posts := [helloPost]
    posts_fts := [⟨1, "zebra", "zebra"⟩]
    next_post_id := 2 }

/-- The private post of `accessDB`, owned by user 2. -/
def privPost : Post :=
  { id := 10, title := "priv", content := "p", is_published := true,
    access_level := some "private", author_id := some 2, created_at := 1 }

/-- The password post of `accessDB`, owned by user 2, secret `"abc"`. -/
def pwPost : Post :=
  { id := 11, title := "pw", content := "q", is_published := true,
    access_level := some "password", access_password := some "abc",
    author_id := some 2, created_at := 2 }

/-- A store with an admin (1), two authors (2, 3), a private post and a
password post, both owned by user 2. -/
def accessDB : DB :=
  { posts := [privPost, pwPost]
    posts_fts := [⟨10, "priv", "p"⟩, ⟨11, "pw", "q"⟩]
    users := [⟨1, "admin"⟩, ⟨2, "author"⟩, ⟨3, "author"⟩]
    next_post_id := 12 }

/-! ### Claim theorems -/

/-- C1: after `create_post` the index-consistency invariant holds, but
`merge_cards_to_post` (new-post path) and `ai_merge_cards_to_post` insert a
live post without any `posts_fts` row, so the invariant fails right after
either merge operation — the sequence create-then-merge is a failing input
for the claimed invariant. -/
theorem merge_cards_breaks_index_consistency :
    indexConsistent mergeBaseDB = true ∧
    (merge_cards_to_post mergeBaseDB [1] 9 none).toOption.map (fun r => indexConsistent r.1)
      = some false ∧
    indexConsistent (ai_merge_cards_to_post mergeBaseDB [1] 9 "AI title" "AI body").1
      = false := by
  decide

/-- C2 counterexample: with two published posts sharing `created_at = 5` and
page size 1, the cursor loop returns only the first post — the second is in
the unpaginated query but never in any page, because the next page filters
`created_at < 5` and discards its tie. -/
theorem cursor_pagination_skips_shared_created_at :
    tiePost2 ∈ postsQuery tieDB false none ∧
    tiePost2 ∉ collectCursorPages tieDB 1 false none 3 none := by
  decide

/-- C2 amended: when no two rows of the filtered set share a `created_at`
value and the page size is positive, the concatenation of all cursor pages
(first call without a cursor, then following `next_cursor` until `has_more`
is false) is exactly the single unpaginated query, in order, with no
duplicate and no missing item. -/
theorem cursor_pagination_complete_of_distinct_created_at (db : DB)
    (include_drafts : Bool) (category_id : Option (Option Nat)) (per_page : Nat)
    (hn : 0 < per_page)
    (hd : ((db.posts.filter (basePred include_drafts category_id)).map (·.created_at)).Nodup) :
    collectCursorPages db per_page include_drafts category_id
        ((postsQuery db include_drafts category_id).length + 1) none
      = postsQuery db include_drafts category_id := by
  have hperm : (List.insertionSort createdDesc
        (db.posts.filter (basePred include_drafts category_id))).Perm
      (db.posts.filter (basePred include_drafts category_id)) :=
    List.perm_insertionSort _ _
  have hnodup : ((postsQuery db include_drafts category_id).map (·.created_at)).Nodup := by
    unfold postsQuery sortByCreatedDesc
    exact ((hperm.map _).nodup_iff).mpr hd
  have hsorted : (postsQuery db include_drafts category_id).Sorted createdDesc :=
    List.sorted_insertionSort _ _
  have hstrict := strictDesc_of_nodup _ hsorted hnodup
  exact collect_from_suffix db include_drafts category_id per_page hn hstrict _ 0 none rfl
    (by omega)

/-- C2 witness: the amended completeness theorem instantiated on a concrete
store with distinct `created_at` values and page size 1. -/
theorem cursor_pagination_complete_witness :
    0 < 1 ∧
    ((distinctDB.posts.filter (basePred false none)).map (·.created_at)).Nodup ∧
    collectCursorPages distinctDB 1 false none ((postsQuery distinctDB false none).length + 1) none
      = postsQuery distinctDB false none :=
  ⟨by decide, by decide,
    cursor_pagination_complete_of_distinct_created_at distinctDB false none 1 (by decide)
      (by decide)⟩

/-- The ordering the claim asserts: `created_at` descending with ties broken
by `id` descending. -/
def specTieOrder (a b : Post) : Bool :=
  decide (b.created_at < a.created_at) ||
    (a.created_at == b.created_at && decide (b.id < a.id))

/-- Boolean pairwise check for a claimed ordering. -/
def pairwiseB {α : Type} (r : α → α → Bool) : List α → Bool
  | [] => true
  | a :: l => l.all (r a) && pairwiseB r l

/-- C3 counterexample: on two published posts tying on `created_at`, the
offset listing returns them in table order (ids 1 then 2) — not in the
claimed `id`-descending tie order; no `ORDER BY` tie-break column exists in
the source queries. -/
theorem listing_tie_order_counterexample :
    (get_all_posts tieDB false 1 20 none).posts.map (fun p => (p.created_at, p.id))
      = [(5, 1), (5, 2)] ∧
    pairwiseB specTieOrder (get_all_posts tieDB false 1 20 none).posts = false := by
  decide

/-- C3 amended: every offset page is the `(page-1)*per_page`-offset,
`per_page`-long slice of the single `created_at`-descending (stable, table
order on ties) query, the first cursor page is the length-`per_page` prefix
of that same query, and both modes' outputs are sorted by `created_at`
descending — the two modes slice one shared total order, but ties keep table
order rather than `id`-descending order. -/
theorem listing_order_created_desc_slices (db : DB) (drafts : Bool)
    (cat : Option (Option Nat)) (page n : Nat) (ct : Option Nat) :
    (get_all_posts db drafts page n cat).posts
        = ((postsQuery db drafts cat).drop ((page - 1) * n)).take n ∧
    (get_all_posts_cursor db none n drafts cat).posts = (postsQuery db drafts cat).take n ∧
    (get_all_posts db drafts page n cat).posts.Sorted createdDesc ∧
    (get_all_posts_cursor db ct n drafts cat).posts.Sorted createdDesc := by
  have hsorted : (postsQuery db drafts cat).Sorted createdDesc :=
    List.sorted_insertionSort _ _
  refine ⟨rfl, ?_, ?_, ?_⟩
  · rw [get_all_posts_cursor_eq]; rfl
  · exact List.Pairwise.sublist
      ((List.take_sublist _ _).trans (List.drop_sublist _ _)) hsorted
  · rw [get_all_posts_cursor_eq]
    have hsub : List.Sublist ((remainingAfter db drafts cat ct).take n)
        (postsQuery db drafts cat) := by
      cases ct with
      | none => exact List.take_sublist _ _
      | some t => exact (List.take_sublist _ _).trans (List.filter_sublist _)
    exact List.Pairwise.sublist hsub hsorted

/-- C4: for a `private` post, access for an existing, truthy viewer is
granted exactly when the viewer is the author or holds the admin role, and
anonymous viewers are denied; for a `password` post, an administrator who is
not the author and holds no unlock-cache entry is denied with reason
`password_required` — the admin override does not extend to passwords. -/
theorem private_admin_password_owner_only (db : DB) (post_id : Nat) (p : Post)
    (u : User) (sp : List String)
    (hp : db.posts.find? (fun q => q.id == post_id) = some p)
    (hu : db.users.find? (fun v => v.id == u.id) = some u)
    (hz : u.id ≠ 0) :
    (p.access_level = some "private" →
      ((check_post_access db post_id (some u.id) sp).allowed = true ↔
        (p.author_id = some u.id ∨ u.role = "admin"))) ∧
    (p.access_level = some "private" →
      (check_post_access db post_id none sp).allowed = false) ∧
    (p.access_level = some "password" → u.role = "admin" → p.author_id ≠ some u.id →
      sp.contains (toString post_id) = false →
      check_post_access db post_id (some u.id) sp =
        { allowed := false, reason := "password_required",
          has_password := some (pwTruthy p.access_password) }) := by
  have hrow : postAccessRow db post_id = some (p.access_level, p.access_password, p.author_id) := by
    simp [postAccessRow, hp]
  have hrole : userRoleLookup db u.id = some u.role := by
    simp [userRoleLookup, hu]
  have hzb : (u.id != 0) = true := by simp [hz]
  refine ⟨?_, ?_, ?_⟩
  · intro hlvl
    simp only [check_post_access, hrow, hlvl, effLevel]
    simp only [hzb, hrole]
    by_cases hcond : (p.author_id == some u.id || u.role == "admin") = true
    · simp only [hcond, if_true]
      simp at hcond
      simpa using hcond
    · simp only [hcond]
      simp at hcond
      simp [hcond.1, hcond.2]
  · intro hlvl
    simp only [check_post_access, hrow, hlvl, effLevel]
    simp
  · intro hlvl hadmin hauthor hsp
    have hbeq : (p.author_id == some u.id) = false := by
      simp [hauthor]
    simp only [check_post_access, hrow, hlvl, effLevel]
    simp only [hzb, hbeq, Bool.and_false, Bool.false_eq_true, if_false]
    have hsess : (!sp.isEmpty && sp.contains (toString post_id)) = false := by
      rw [hsp, Bool.and_false]
    simp only [hsess]
    rfl

/-- C4 witness: in `accessDB`, the admin (user 1) may read the private post
of user 2, an anonymous viewer may not, and the same admin is denied the
password post of user 2 with `password_required`. -/
theorem private_admin_password_owner_only_witness :
    (check_post_access accessDB 10 (some 1) []).allowed = true ∧
    (check_post_access accessDB 10 none []).allowed = false ∧
    check_post_access accessDB 11 (some 1) [] =
      { allowed := false, reason := "password_required", has_password := some true } :=
  have h10 := private_admin_password_owner_only accessDB 10 privPost ⟨1, "admin"⟩ []
    (by decide) (by decide) (by decide)
  have h11 := private_admin_password_owner_only accessDB 11 pwPost ⟨1, "admin"⟩ []
    (by decide) (by decide) (by decide)
  ⟨(h10.1 rfl).mpr (Or.inr rfl), h10.2.1 rfl, h11.2.2 rfl rfl (by decide) (by decide)⟩

instance {ε α : Type} [DecidableEq ε] [DecidableEq α] : DecidableEq (Except ε α)
  | .ok a, .ok b => decidable_of_iff (a = b) (by simp)
  | .error e, .error f => decidable_of_iff (e = f) (by simp)
  | .ok _, .error _ => isFalse (fun h => Except.noConfusion h)
  | .error _, .ok _ => isFalse (fun h => Except.noConfusion h)

/-- C5: on the concrete store whose post 5 is password-protected with secret
`"abc"`: the access check denies an anonymous viewer with
`password_required`; the models-layer `verify_post_password` accepts the
correct secret; but the route that would record the unlock-cache entry
raises `TypeError` (its `def` shadows the imported helper and calls itself
with two arguments), so no cache entry is written by the route; and an
access check whose cache does carry the key `"5"` allows without touching
the secret. -/
theorem verify_password_route_raises_before_cache_write :
    check_post_access pwPostDB 5 none [] =
      { allowed := false, reason := "password_required", has_password := some true } ∧
    verify_post_password pwPostDB 5 "abc" = true ∧
    route_verify_post_password pwPostDB 5 "abc" {} =
      .error "TypeError: verify_post_password() takes 1 positional argument but 2 were given" ∧
    check_post_access pwPostDB 5 none ["5"] =
      { allowed := true, reason := "password_verified" } := by
  decide

/-- C6 counterexample: posts 1 and 2 of `twinPwDB` have identical
`(visibility, owner, secret)` rows; for the same anonymous viewer and the
same unlock cache `["1"]`, post 1 is allowed and post 2 denied — the outcome
also depends on the item id's membership in the cache, not on the claimed
tuple alone. -/
theorem check_post_access_not_pure_in_claimed_tuple :
    postAccessRow twinPwDB 1 = postAccessRow twinPwDB 2 ∧
    (check_post_access twinPwDB 1 none ["1"]).allowed = true ∧
    (check_post_access twinPwDB 2 none ["1"]).allowed = false := by
  decide

/-- The source's unlock-cache test `session_passwords and str(post_id) in
session_passwords` reduces to bare key membership. -/
theorem session_check_eq_contains (sp : List String) (x : String) :
    (!sp.isEmpty && sp.contains x) = sp.contains x := by
  cases sp <;> simp [List.contains]

/-- C6 amended: `check_post_access` is a pure function of the tuple
(item access row = visibility/secret/owner, viewer id, viewer's role lookup,
and the unlock cache's membership of the item's own id key): two invocations
agreeing on that extended tuple return equal results. -/
theorem check_post_access_deterministic (db db' : DB) (pid pid' : Nat)
    (uid : Option Nat) (sp sp' : List String)
    (row : Option String × Option String × Option Nat)
    (h1 : postAccessRow db pid = some row)
    (h2 : postAccessRow db' pid' = some row)
    (h3 : uid.bind (userRoleLookup db) = uid.bind (userRoleLookup db'))
    (h4 : sp.contains (toString pid) = sp'.contains (toString pid')) :
    check_post_access db pid uid sp = check_post_access db' pid' uid sp' := by
  obtain ⟨lvl, pw, author⟩ := row
  simp only [check_post_access, h1, h2]
  simp only [session_check_eq_contains]
  simp only [h4]
  cases uid with
  | none => rfl
  | some u =>
    have hrole : userRoleLookup db u = userRoleLookup db' u := by simpa using h3
    simp only [hrole]

/-- C6 witness: the amended determinism theorem applied to posts 1 and 2 of
`twinPwDB` with caches `["1"]` and `["2"]` respectively. -/
theorem check_post_access_deterministic_witness :
    postAccessRow twinPwDB 1 = some (some "password", some "s", some 9) ∧
    postAccessRow twinPwDB 2 = some (some "password", some "s", some 9) ∧
    (some 9 : Option Nat).bind (userRoleLookup twinPwDB)
      = (some 9 : Option Nat).bind (userRoleLookup twinPwDB) ∧
    (["1"].contains (toString 1) = ["2"].contains (toString 2)) ∧
    check_post_access twinPwDB 1 (some 9) ["1"] = check_post_access twinPwDB 2 (some 9) ["2"] :=
  ⟨by decide, by decide, rfl, by decide,
    check_post_access_deterministic twinPwDB twinPwDB 1 2 (some 9) ["1"] ["2"]
      (some "password", some "s", some 9) (by decide) (by decide) rfl (by decide)⟩

/-- C7 counterexample: deleting `[1, 2, 3]` from a store without post 2
reports `deleted_count = 3` and an empty error list — a `DELETE` matching no
row is a silent success, so the claimed `succeeded_count = 2` plus an error
entry never materializes. -/
theorem batch_delete_missing_id_counted_as_success :
    (batch_delete batchDB [1, 2, 3]).toOption.map (fun r => (r.deleted_count, r.errors))
      = some (3, []) ∧
    (batch_delete batchDB [1, 2, 3]).toOption.map
        (fun r => decide (r.deleted_count = 2) || decide (r.errors ≠ []))
      = some false := by
  decide

/-- C7 amended: the same batch delete does not raise and reports
`deleted_count = 3` (the missing middle id is counted: its `DELETE` is a
no-op success), no error entry, overall success, and both existing posts and
their index rows gone. -/
theorem batch_delete_missing_id_amended :
    (batch_delete batchDB [1, 2, 3]).toOption.map (fun r => r.deleted_count) = some 3 ∧
    (batch_delete batchDB [1, 2, 3]).toOption.map (fun r => r.errors) = some [] ∧
    (batch_delete batchDB [1, 2, 3]).toOption.map (fun r => r.success) = some true ∧
    (batch_delete batchDB [1, 2, 3]).toOption.map (fun r => r.db.posts) = some [] ∧
    (batch_delete batchDB [1, 2, 3]).toOption.map (fun r => r.db.posts_fts) = some [] := by
  decide

/-- C8 counterexample: on a drifted store whose mirror row says `zebra` while
the primary post says `hello`, searching `zebra` finds nothing although the
mirror matches, and searching `hello` finds the post although the mirror
does not contain it — the query runs against the primary table. -/
theorem search_ignores_fts_mirror :
    mirrorDB.posts_fts.any (fun e => likeContains e.title "zebra") = true ∧
    (search_posts mirrorDB "zebra" false 1 20).total = 0 ∧
    (search_posts mirrorDB "zebra" false 1 20).posts = [] ∧
    mirrorDB.posts_fts.all
        (fun e => !likeContains e.title "hello" && !likeContains e.content "hello") = true ∧
    (search_posts mirrorDB "hello" false 1 20).total = 1 := by
  decide

/-- C8 amended: `search_posts` is invariant under arbitrary replacement of
the `posts_fts` mirror, and every returned post comes from the primary
`posts` table with the query matching its own title or content (`LIKE`
substring) under the draft filter. -/
theorem search_posts_primary_table (db : DB) (fts' : List FtsEntry) (q : String)
    (drafts : Bool) (page n : Nat) :
    search_posts { db with posts_fts := fts' } q drafts page n
        = search_posts db q drafts page n ∧
    ∀ p ∈ (search_posts db q drafts page n).posts,
      p ∈ db.posts ∧ (likeContains p.title q || likeContains p.content q) = true ∧
        pubCond drafts p = true := by
  constructor
  · rfl
  · intro p hp
    simp only [search_posts, sortByCreatedDesc] at hp
    have h1 := List.mem_of_mem_take hp
    have h2 := List.mem_of_mem_drop h1
    have h3 := ((List.perm_insertionSort createdDesc _).mem_iff).mp h2
    have h4 := List.mem_filter.mp h3
    have h5 := h4.2
    rw [Bool.and_eq_true] at h5
    exact ⟨h4.1, h5.1, h5.2⟩

/-- C8 witness: the amended theorem applied to `mirrorDB` with query
`hello` and the returned post `helloPost`. -/
theorem search_posts_primary_table_witness :
    helloPost ∈ (search_posts mirrorDB "hello" false 1 20).posts ∧
    (helloPost ∈ mirrorDB.posts ∧
      (likeContains helloPost.title "hello" || likeContains helloPost.content "hello") = true ∧
      pubCond false helloPost = true) :=
  ⟨by decide,
    (search_posts_primary_table mirrorDB [] "hello" false 1 20).2 helloPost (by decide)⟩

/-- C9: any requested page size outside `{10, 20, 40, 80}` is silently
replaced by 20 on the listing routes, and the resulting page (offset or
cursor mode) holds at most 20 items. -/
theorem per_page_outside_allowed_set_clamped (req : Nat)
    (h : ([10, 20, 40, 80] : List Nat).contains req = false) :
    clamp_per_page req = 20 ∧
    ∀ (db : DB) (page : Nat) (ct : Option Nat) (cat : Option (Option Nat)),
      (blog_index db page req).posts.length ≤ 20 ∧
      (api_posts_cursor db ct req cat).posts.length ≤ 20 := by
  have hc : clamp_per_page req = 20 := by
    unfold clamp_per_page
    rw [h]
    exact if_neg (by decide)
  refine ⟨hc, fun db page ct cat => ⟨?_, ?_⟩⟩
  · simp only [blog_index, hc, get_all_posts]
    rw [List.length_take]
    exact Nat.min_le_left _ _
  · simp only [api_posts_cursor, hc, get_all_posts_cursor_eq]
    rw [List.length_take]
    exact Nat.min_le_left _ _

/-- C9 witness: the clamping theorem at the requested size 17, on `tieDB`. -/
theorem per_page_17_clamped_witness :
    ([10, 20, 40, 80] : List Nat).contains 17 = false ∧
    clamp_per_page 17 = 20 ∧
    (blog_index tieDB 1 17).posts.length ≤ 20 ∧
    (api_posts_cursor tieDB none 17 none).posts.length ≤ 20 :=
  have h := per_page_outside_allowed_set_clamped 17 (by decide)
  ⟨by decide, h.1, (h.2 tieDB 1 none none).1, (h.2 tieDB 1 none none).2⟩

/-- Mapping a guarded update over rows none of which match the guard is the
identity. -/
theorem map_update_id (l : List Post) (pid : Nat) (f : Post → Post)
    (h : ∀ p ∈ l, p.id ≠ pid) :
    l.map (fun p => if p.id = pid then f p else p) = l := by
  induction l with
  | nil => rfl
  | cons a l ih =>
    rw [List.map_cons, if_neg (h a (List.mem_cons_self a l)),
      ih (fun p hp => h p (List.mem_cons_of_mem a hp))]

/-- C10: `update_post` on an id with no `posts` row still returns `True`,
leaves the `posts` table unchanged, and inserts a `posts_fts` row carrying
the supplied title/content under that id — an index entry for a content item
that does not exist. -/
theorem update_post_missing_id_inserts_orphan (db : DB) (post_id : Nat)
    (title content : String) (pub : Bool) (cat : Option Nat)
    (h : ∀ p ∈ db.posts, p.id ≠ post_id) :
    (update_post db post_id title content pub cat none none).2 = true ∧
    (update_post db post_id title content pub cat none none).1.posts = db.posts ∧
    ({ rowid := post_id, title := title, content := content } : FtsEntry)
      ∈ (update_post db post_id title content pub cat none none).1.posts_fts := by
  refine ⟨rfl, ?_, ?_⟩
  · simp only [update_post]
    exact map_update_id db.posts post_id _ h
  · simp only [update_post]
    exact List.mem_append_right _ (List.mem_singleton_self _)

/-- C10 witness: the orphan-index theorem on `tieDB` with the absent id 99. -/
theorem update_post_missing_id_witness :
    (∀ p ∈ tieDB.posts, p.id ≠ 99) ∧
    ((update_post tieDB 99 "T" "C" false none none none).2 = true ∧
      (update_post tieDB 99 "T" "C" false none none none).1.posts = tieDB.posts ∧
      ({ rowid := 99, title := "T", content := "C" } : FtsEntry)
        ∈ (update_post tieDB 99 "T" "C" false none none none).1.posts_fts) :=
  ⟨by decide, update_post_missing_id_inserts_orphan tieDB 99 "T" "C" false none (by decide)⟩

end MyBlog
